import Mathlib

/-!
# Verification of the spine-ftp client against its specification

Shallow embedding of the spine-ftp FTP client (TypeScript sources under
`src/`).  Pure fragments of the source become Lean functions; the stateful
control-channel dialogue becomes explicit state passing over a connection
state record; fallible code returns `Except`.  JavaScript peculiarities that
the source relies on (string coercion of `undefined`, 0-based months of the
`Date` constructor, regex alternation order of `RE_CMD_LINE`) are embedded
faithfully and documented at each definition.
-/

deriving instance DecidableEq for Except

namespace SpineFtp

/-- A parsed server reply, mirroring `FtpResponse` from `definitions.ts`
(`code` is the three-digit reply code, `message` the accumulated text). -/
structure FtpResponse where
  code : Nat
  message : String
deriving DecidableEq, Repr

/-- The exception classes of `exceptions.ts`, as a closed enumeration:
`ftpGeneric` is the base `FtpException`, the others are its subclasses.
`jsTypeError` models a JavaScript `TypeError` raised by indexing a `null`
regex-match result; `outOfFuel` is a modelling artifact used by fueled
versions of loops of the source that are not structurally terminating. -/
inductive FtpErrorKind where
  | ftpGeneric
  | fileNotFound
  | directoryNotFound
  | timeout
  | network
  | auth
  | jsTypeError
  | outOfFuel
deriving DecidableEq, Repr

/-- An error value: the exception's class together with its message. -/
structure FtpError where
  kind : FtpErrorKind
  message : String
deriving DecidableEq, Repr

/-- Server feature flags, mirroring `FtpFeatures` from `definitions.ts`. -/
structure FtpFeatures where
  MDTM : Bool
  MFMT : Bool
  MLSD : Bool
  MLST : Bool
  SIZE : Bool
  UTF8 : Bool
  EPSV : Bool
deriving DecidableEq, Repr

/-- The all-false feature record used to initialise `FtpCommandConnection.features`. -/
def initFeatures : FtpFeatures :=
  { MDTM := false, MFMT := false, MLSD := false, MLST := false,
    SIZE := false, UTF8 := false, EPSV := false }

/-! ## String helpers modelling the JavaScript primitives

All string manipulation is done through `List Char` with structural
recursion so that every definition evaluates inside the kernel. -/

/-- JavaScript `String.prototype.split` with a single-character separator:
left-to-right, non-overlapping, keeping empty pieces. -/
def splitChar (sep : Char) (cs : List Char) : List (List Char) :=
  cs.foldr
    (fun c acc =>
      match acc with
      | [] => [[c]]
      | h :: t => if c = sep then [] :: h :: t else (c :: h) :: t)
    [[]]

/-- JavaScript `split("\r\n")`: left-to-right, non-overlapping split on the
two-character CRLF separator, keeping empty pieces. -/
def splitCRLFChars : List Char → List (List Char)
  | '\r' :: '\n' :: rest => [] :: splitCRLFChars rest
  | c :: rest =>
    match splitCRLFChars rest with
    | [] => [[c]]
    | h :: t => (c :: h) :: t
  | [] => [[]]

/-- `s.split("\r\n")` on strings. -/
def jsSplitCRLF (s : String) : List String :=
  (splitCRLFChars s.data).map String.mk

/-- The JavaScript line terminators: the four characters a regex `.`
can never match (`\n`, `\r`, U+2028, U+2029).  Negated character classes
such as `[^\-]` do match them. -/
def isJsLineTerminator (c : Char) : Bool :=
  c = '\n' || c = '\r' || c = Char.ofNat 0x2028 || c = Char.ofNat 0x2029

/-- What an un-anchored first `(.+)` captures: the engine advances past
leading line terminators (`.` cannot match there) and then captures
greedily up to the next line terminator.  On input consisting solely of
line terminators the JS match is `null` and this returns `""`; the reply
parser only reaches this through its blank-line filter, which discards
such lines (they are blank under `trim`), so that value is never used. -/
def jsDotRun (cs : List Char) : String :=
  String.mk ((cs.dropWhile isJsLineTerminator).takeWhile (fun c => !isJsLineTerminator c))

/-- Whether a `(.+)` group can start on this suffix: it begins with a
character the regex dot matches. -/
def dotCanMatch (cs : List Char) : Bool :=
  match cs with
  | [] => false
  | c :: _ => !isJsLineTerminator c

/-- The whitespace set of JavaScript `trim` and `parseInt` (ASCII
whitespace, vertical tab, form feed, no-break space, BOM, and the line
and paragraph separators). -/
def jsIsWhitespace (c : Char) : Bool :=
  c.isWhitespace || c = Char.ofNat 0x0b || c = Char.ofNat 0x0c
    || c = Char.ofNat 0xa0 || c = Char.ofNat 0xfeff
    || c = Char.ofNat 0x2028 || c = Char.ofNat 0x2029

/-- JavaScript `String.prototype.trim` (whitespace at both ends removed). -/
def jsTrim (s : String) : String :=
  String.mk (((s.data.dropWhile jsIsWhitespace).reverse.dropWhile jsIsWhitespace).reverse)

/-- JavaScript `String.prototype.includes`: substring containment. -/
def jsIncludes (s sub : String) : Bool :=
  (List.range (s.data.length + 1)).any (fun i => sub.data.isPrefixOf (s.data.drop i))

/-- JavaScript `String.prototype.substr(start)` / our uses of `.substring`:
the suffix of `s` from character index `start` (empty when past the end). -/
def jsDrop (s : String) (start : Nat) : String :=
  String.mk (s.data.drop start)

/-- The first `n` characters of `s`. -/
def jsTake (s : String) (n : Nat) : String :=
  String.mk (s.data.take n)

/-- Numeric value of a list of ASCII digit characters, most significant
first. -/
def digitsToNat (cs : List Char) : Nat :=
  cs.foldl (fun a c => 10 * a + (c.toNat - 48)) 0

/-- JavaScript `parseInt(s)` restricted to base 10: skip leading
whitespace, optional sign, then the longest digit run; `none` models `NaN`
(no digits found). -/
def jsParseInt (s : String) : Option Int :=
  let cs := s.data.dropWhile jsIsWhitespace
  let signAndRest : Int × List Char :=
    match cs with
    | '-' :: t => (-1, t)
    | '+' :: t => (1, t)
    | _ => (1, cs)
  let ds := signAndRest.2.takeWhile Char.isDigit
  if ds.isEmpty then none else some (signAndRest.1 * (digitsToNat ds : Int))

/-- Lowercase an ASCII character (`String.prototype.toLowerCase`, ASCII
range, which is all the listing keys use). -/
def jsLowerChar (c : Char) : Char :=
  if 'A' ≤ c ∧ c ≤ 'Z' then Char.ofNat (c.toNat + 32) else c

/-- JavaScript `String.prototype.toLowerCase` (ASCII). -/
def jsToLower (s : String) : String :=
  String.mk (s.data.map jsLowerChar)

/-- Uppercase an ASCII character. -/
def jsUpperChar (c : Char) : Char :=
  if 'a' ≤ c ∧ c ≤ 'z' then Char.ofNat (c.toNat - 32) else c

/-- JavaScript `String.prototype.toUpperCase` (ASCII). -/
def jsToUpper (s : String) : String :=
  String.mk (s.data.map jsUpperChar)

/-! ## The reply parser (`FtpCommandConnection.parseResponse`, connection.ts)

The source splits each inbound chunk on CRLF, drops blank lines, and runs
every line through

  `RE_CMD_LINE = /(((^\d{3})[^\-]|(^\d{3})(\-))(.+))|(.+)/`

appending `match[6] || match[7]` plus CRLF to `commandBuffer` and emitting a
reply (code `parseInt(match[3])`, message = the accumulated buffer) whenever
group 3 matched, i.e. whenever the line starts with three digits followed by
a character other than `-` and at least one character that the regex's `.`
can match (not a line terminator — lines are split only on CRLF, so a line
may well contain bare `\n` or `\r`). -/

/-- Parser state: the pending-line array `responseBuffer` and the multi-line
accumulator `commandBuffer` of `FtpCommandConnection`. -/
structure ParserState where
  responseBuffer : List String
  commandBuffer : String
deriving DecidableEq, Repr

/-- Initial parser state of a fresh `FtpCommandConnection`. -/
def initParserState : ParserState := ⟨[], ""⟩

/-- The numeric value of three ASCII digit characters, as produced by
`parseInt(match[3], 10)` on the three-digit group. -/
def threeDigitValue (d1 d2 d3 : Char) : Nat :=
  100 * (d1.toNat - 48) + 10 * (d2.toNat - 48) + (d3.toNat - 48)

/-- One line run through `RE_CMD_LINE`.  Returns the text that the source
appends to `commandBuffer` (`match[6] || match[7]`) together with the
emitted code (`match[3]`) when the terminating alternative matched.
Alternation order of the regex: `^\d{3}` + `[^\-]` + `(.+)` (group 3,
emits), then `^\d{3}` + `-` + `(.+)` (group 4, multi-line opener, no
emission), else `(.+)` alone via group 7.  The negated class `[^\-]`
matches every character but `-`, line terminators included; `(.+)`
requires the character after the four-character head to be one `.` can
match — never `\n`, `\r`, U+2028 or U+2029 — and group 6 then captures
greedily up to the next such terminator.  When both anchored
alternatives fail, group 7 captures the line's first maximal dot-run
(`^` cannot match past position 0, so the engine just skips leading
terminators).  A line of nothing but terminators would make `exec`
return `null` and the handler throw, but such lines are blank under
`trim` and never reach the loop. -/
def matchCmdLine (line : String) : String × Option Nat :=
  match line.data with
  | d1 :: d2 :: d3 :: c4 :: rest =>
    if d1.isDigit && d2.isDigit && d3.isDigit && dotCanMatch rest then
      let tail := String.mk (rest.takeWhile (fun c => !isJsLineTerminator c))
      if c4 = '-' then
        (tail, none)
      else
        (tail, some (threeDigitValue d1 d2 d3))
    else (jsDotRun line.data, none)
  | _ => (jsDotRun line.data, none)

/-- The body of the `while` loop of `parseResponse` for one shifted line:
append `match[6] || match[7]` plus CRLF to the accumulator, and if group 3
matched, emit a reply carrying the whole accumulator and reset it. -/
def processLine (st : ParserState) (line : String) : Option FtpResponse × ParserState :=
  let m := matchCmdLine line
  let buf := st.commandBuffer ++ m.1 ++ "\r\n"
  match m.2 with
  | some c => (some { code := c, message := buf }, { st with commandBuffer := "" })
  | none => (none, { st with commandBuffer := buf })

/-- Drain the line buffer.  The source loop `while (true) { const line =
this.responseBuffer.shift(); if (!line) break; ... }` pops every line: all
buffered lines are non-blank (blank ones were filtered out), so the loop
only stops on `undefined`, i.e. when the array is empty. -/
def drainLines (lines : List String) (st : ParserState) : List FtpResponse × ParserState :=
  match lines with
  | [] => ([], st)
  | l :: rest =>
    match processLine st l with
    | (some r, st') =>
      let (rs, st'') := drainLines rest st'
      (r :: rs, st'')
    | (none, st') => drainLines rest st'

/-- `FtpCommandConnection.parseResponse(data)`: concatenate the chunk's
CRLF-split, non-blank lines onto `responseBuffer`, then drain the buffer.
The chunk is decoded byte-per-character (`data.toString("binary")`), which
we model by taking the chunk directly as a string. -/
def parseResponse (st : ParserState) (data : String) : List FtpResponse × ParserState :=
  let lines := st.responseBuffer ++ ((jsSplitCRLF data).filter (fun l => jsTrim l ≠ ""))
  drainLines lines { st with responseBuffer := [] }

/-- `onData` applied to each chunk of a chunk sequence in arrival order;
collects the replies pushed onto the reply queue. -/
def feedChunks (chunks : List String) (st : ParserState) : List FtpResponse × ParserState :=
  match chunks with
  | [] => ([], st)
  | c :: rest =>
    let (rs, st') := parseResponse st c
    let (rs', st'') := feedChunks rest st'
    (rs ++ rs', st'')

/-! Spec-side mirrors for the classification claim (C1), written from the
shape the specification describes. -/

/-- A line whose processing closes and emits the open reply: three ASCII
digits, then a character other than `-` (possibly itself a line
terminator, which the negated class accepts), then at least one
character that the regex's `.` can match (not a line terminator). -/
def isTerminatorLine (line : String) : Bool :=
  match line.data with
  | d1 :: d2 :: d3 :: c4 :: rest =>
    d1.isDigit && d2.isDigit && d3.isDigit && decide (c4 ≠ '-')
      && dotCanMatch rest
  | _ => false

/-- The reply code carried by a terminator line (its first three digits). -/
def terminatorCode (line : String) : Nat :=
  match line.data with
  | d1 :: d2 :: d3 :: _ => threeDigitValue d1 d2 d3
  | _ => 0

/-- The text a processed line contributes to the accumulator: when one
of the code-prefixed alternatives matched, the dot-run right after the
four-character `NNN<SP>` / `NNN-` head (greedy up to the next line
terminator); otherwise the line's first maximal dot-run. -/
def appendedText (line : String) : String :=
  match line.data with
  | d1 :: d2 :: d3 :: _ :: rest =>
    if d1.isDigit && d2.isDigit && d3.isDigit && dotCanMatch rest then
      String.mk (rest.takeWhile (fun c => !isJsLineTerminator c))
    else jsDotRun line.data
  | _ => jsDotRun line.data

/-! ## The data-channel buffer collector (`FtpDataConnection.readToEnd`, connection.ts)

`readToEnd` starts from a 1024-byte buffer and a write marker.  For each
inbound chunk: when `marker + chunk.length` exceeds the buffer length it
allocates a doubled buffer and copies the first `marker` bytes into it
(the chunk itself is not copied and the marker does not advance — this is
the `if` branch of the source); otherwise it copies the chunk at the
marker and advances the marker.  On `end` it returns the first `marker`
bytes. -/

/-- The growable-buffer state of `readToEnd`: the backing buffer contents
and the current write marker. -/
structure ReadBufferState where
  result : List Nat
  marker : Nat
deriving DecidableEq, Repr

/-- The `socket.on("data")` handler of `readToEnd` applied to one chunk. -/
def readChunk (st : ReadBufferState) (buffer : List Nat) : ReadBufferState :=
  if st.result.length < st.marker + buffer.length then
    { result := st.result.take st.marker ++
        List.replicate (2 * st.result.length - st.marker) 0,
      marker := st.marker }
  else
    { result := st.result.take st.marker ++ buffer ++
        st.result.drop (st.marker + buffer.length),
      marker := st.marker + buffer.length }

/-- `FtpDataConnection.readToEnd` over the sequence of chunks received
before the peer closes: fold the data handler over the chunks, then return
the first `marker` bytes of the final buffer. -/
def readToEnd (chunks : List (List Nat)) : List Nat :=
  let final := chunks.foldl readChunk { result := List.replicate 1024 0, marker := 0 }
  final.result.take final.marker

/-! ## Control-connection state and reply consumption

The asynchronous command dialogue of the source is embedded as explicit
state passing: a command's `execute` maps a connection state to either a
thrown exception paired with the state at the moment of the throw, or a
result paired with the updated state.  Exception messages are kept short
rather than verbatim; only their class (`FtpErrorKind`) and, for argument
errors, their leading word are relied upon. -/

/-- The observable control-channel state threaded through command
`execute` implementations: the command lines written so far (each sent
with a trailing CRLF by `FtpCommandConnection.write`), the queue of
replies the parser will deliver, the feature set, and the payloads of the
future passive data connections (a list of chunk lists, consumed in
order by `FtpPassiveModeCommand`). -/
structure ConnSt where
  written : List String
  replies : List FtpResponse
  features : FtpFeatures
  dataConns : List (List (List Nat))
deriving DecidableEq, Repr

/-- `FtpCommandConnection.write(data)`: append the command line. -/
def writeCmd (s : String) (st : ConnSt) : ConnSt :=
  { st with written := st.written ++ [s] }

/-- `FtpCommandConnection.getResponse()`: pop the next queued reply, or
fail with `FtpTimeoutException` when no reply arrives. -/
def getResponse (st : ConnSt) : Except (FtpError × ConnSt) (FtpResponse × ConnSt) :=
  match st.replies with
  | [] => .error (⟨.timeout, "Command response timeout"⟩, st)
  | r :: rest => .ok (r, { st with replies := rest })

/-- `CwdCommand.execute`: write `CWD <path>` and consume one reply; a
reply of 300 or above yields `false`, anything below yields `true` (a
failed CWD is not an exception). -/
def cwdCommand (path : String) (st : ConnSt) : Except (FtpError × ConnSt) (Bool × ConnSt) :=
  match getResponse (writeCmd ("CWD " ++ path) st) with
  | .error e => .error e
  | .ok (r, st') => .ok (if 300 ≤ r.code then false else true, st')

/-- `RE_PWD.exec`: first match of the regex `"(.+)"` followed by a space
or the end of the string.  The engine tries start positions left to
right; at each opening quote the greedy `(.+)` backtracks from the
longest candidate, so the right-most closing quote followed by a space or
the end wins; `.` does not match a line break. -/
def jsRePwd (s : String) : Option String :=
  let cs := s.data
  let n := cs.length
  (List.range n).findSome? (fun i =>
    if (cs.get? i).getD ' ' = '"' then
      ((List.range n).reverse).findSome? (fun j =>
        if i + 2 ≤ j ∧ (cs.get? j).getD ' ' = '"'
            ∧ (j + 1 = n ∨ (cs.get? (j + 1)).getD '!' = ' ')
            ∧ ((cs.drop (i + 1)).take (j - i - 1)).all
                (fun c => !(c = '\n' || c = '\r')) then
          some (String.mk ((cs.drop (i + 1)).take (j - i - 1)))
        else none)
    else none)

/-- `PwdCommand.execute`: write `PWD`; a reply of 300 or above raises a
generic `FtpException`; otherwise the current directory is extracted from
the reply text with `RE_PWD` (`match[1]` of a `null` match raises a JS
`TypeError`, surfaced as a rejection). -/
def pwdCommand (st : ConnSt) : Except (FtpError × ConnSt) (String × ConnSt) :=
  match getResponse (writeCmd "PWD" st) with
  | .error e => .error e
  | .ok (r, st') =>
    if 300 ≤ r.code then
      .error (⟨.ftpGeneric, "Cannot get current directory"⟩, st')
    else
      match jsRePwd r.message with
      | none => .error (⟨.jsTypeError, "match is null"⟩, st')
      | some d => .ok (d, st')

/-- `SizeCommand.execute`: require the SIZE feature, write `SIZE <p>`,
map 550 to `FtpFileNotFoundException`, any other non-213 code to a
generic `FtpException`, else return `parseInt` of the reply text (`none`
models `NaN`). -/
def sizeCommand (path : String) (st : ConnSt) :
    Except (FtpError × ConnSt) (Option Int × ConnSt) :=
  if st.features.SIZE = false then
    .error (⟨.ftpGeneric, "SIZE feature not avaible on FTP server"⟩, st)
  else
    match getResponse (writeCmd ("SIZE " ++ path) st) with
    | .error e => .error e
    | .ok (r, st') =>
      if r.code = 550 then
        .error (⟨.fileNotFound, "File not found on server"⟩, st')
      else if r.code = 213 then .ok (jsParseInt r.message, st')
      else .error (⟨.ftpGeneric, "Cannot retrieve file size"⟩, st')

/-- `FtpClient.fileExists`: call `getFileSize` (that is, `SizeCommand`);
a caught `FtpFileNotFoundException` becomes `false`, every other error is
re-thrown, success becomes `true`. -/
def fileExists (path : String) (st : ConnSt) :
    Except (FtpError × ConnSt) (Bool × ConnSt) :=
  match sizeCommand path st with
  | .error (e, st') =>
    if e.kind = .fileNotFound then .ok (false, st') else .error (e, st')
  | .ok (_, st') => .ok (true, st')

/-! ## Login handshake (`FtpLoginCommand` and its sub-commands) -/

/-- `FtpWelcomeCommand.execute`: consume the greeting, require 220. -/
def ftpWelcomeCommand (st : ConnSt) : Except (FtpError × ConnSt) ConnSt :=
  match getResponse st with
  | .error e => .error e
  | .ok (r, st') =>
    if r.code = 220 then .ok st'
    else .error (⟨.ftpGeneric, "Welcome response code invalid, aborting"⟩, st')

/-- `FtpUserCommand.execute`: write `USER <u>`; any reply other than 331
raises a generic `FtpException`. -/
def ftpUserCommand (user : String) (st : ConnSt) : Except (FtpError × ConnSt) ConnSt :=
  match getResponse (writeCmd ("USER " ++ user) st) with
  | .error e => .error e
  | .ok (r, st') =>
    if r.code = 331 then .ok st'
    else .error (⟨.ftpGeneric, "Cannot login to ftp server"⟩, st')

/-- `FtpPasswordCommand.execute`: write `PASS <p>`; only 530 raises (an
`FtpAuthorizationException`); every other code is accepted. -/
def ftpPasswordCommand (pass : String) (st : ConnSt) : Except (FtpError × ConnSt) ConnSt :=
  match getResponse (writeCmd ("PASS " ++ pass) st) with
  | .error e => .error e
  | .ok (r, st') =>
    if r.code = 530 then .error (⟨.auth, "Login failed"⟩, st')
    else .ok st'

/-- The case-sensitive substring scan of `FtpFeaturesCommand` over the
FEAT reply text. -/
def scanFeatures (msg : String) : FtpFeatures :=
  { MDTM := jsIncludes msg "MDTM", MFMT := jsIncludes msg "MFMT",
    MLSD := jsIncludes msg "MLSD", MLST := jsIncludes msg "MLST",
    SIZE := jsIncludes msg "SIZE", UTF8 := jsIncludes msg "UTF8",
    EPSV := jsIncludes msg "EPSV" }

/-- `FtpFeaturesCommand.execute`: write `FEAT`, require 211, scan the
reply text for the seven feature tokens. -/
def ftpFeaturesCommand (st : ConnSt) :
    Except (FtpError × ConnSt) (FtpFeatures × ConnSt) :=
  match getResponse (writeCmd "FEAT" st) with
  | .error e => .error e
  | .ok (r, st') =>
    if r.code = 211 then .ok (scanFeatures r.message, st')
    else .error (⟨.ftpGeneric, "Cannot retrieve server features"⟩, st')

/-- `FtpOptionCommand.execute`: write `OPTS <OPTION> <VALUE>` (both
upper-cased); a reply of 300 or above raises a generic error. -/
def ftpOptionCommand (option value : String) (st : ConnSt) :
    Except (FtpError × ConnSt) ConnSt :=
  match getResponse
      (writeCmd ("OPTS " ++ jsToUpper option ++ " " ++ jsToUpper value) st) with
  | .error e => .error e
  | .ok (r, st') =>
    if 300 ≤ r.code then .error (⟨.ftpGeneric, "Cannot set option"⟩, st')
    else .ok st'

/-- `TransferModeCommand.execute` with `FtpTransferMode.BINARY` (the only
mode login uses): write `TYPE I`, require 200. -/
def transferModeBinaryCommand (st : ConnSt) : Except (FtpError × ConnSt) ConnSt :=
  match getResponse (writeCmd "TYPE I" st) with
  | .error e => .error e
  | .ok (r, st') =>
    if r.code = 200 then .ok st'
    else .error (⟨.ftpGeneric, "Cannot set transfer mode"⟩, st')

/-- `FtpLoginCommand.execute`: await the greeting, send `USER`, `PASS`,
`FEAT` (assigning the scanned feature set into `connection.features`),
then `OPTS UTF8 ON` exactly when the UTF8 feature was advertised, and
finally `TYPE I`. -/
def ftpLoginCommand (user pass : String) (st : ConnSt) :
    Except (FtpError × ConnSt) ConnSt :=
  match ftpWelcomeCommand st with
  | .error e => .error e
  | .ok st1 =>
  match ftpUserCommand user st1 with
  | .error e => .error e
  | .ok st2 =>
  match ftpPasswordCommand pass st2 with
  | .error e => .error e
  | .ok st3 =>
  match ftpFeaturesCommand st3 with
  | .error e => .error e
  | .ok (fs, st4) =>
  match (if fs.UTF8 then ftpOptionCommand "UTF8" "ON" { st4 with features := fs }
         else .ok { st4 with features := fs }) with
  | .error e => .error e
  | .ok st5 => transferModeBinaryCommand st5

/-! ## Node posix path helpers (`path.isAbsolute`, `path.join`) -/

/-- `path.posix.isAbsolute`: the path starts with a slash. -/
def isAbsolutePosix (s : String) : Bool :=
  match s.data with
  | '/' :: _ => true
  | _ => false

/-- Resolve `..` segments against an output stack (`acc` holds the kept
segments in reverse).  At the root of an absolute path `..` is dropped;
in a relative path leading `..` segments are kept. -/
def posixResolveDots (abs : Bool) (acc : List String) : List String → List String
  | [] => acc.reverse
  | s :: rest =>
    if s = ".." then
      match acc with
      | [] =>
        if abs then posixResolveDots abs [] rest
        else posixResolveDots abs [".."] rest
      | t :: acc' =>
        if t = ".." then posixResolveDots abs (s :: acc) rest
        else posixResolveDots abs acc' rest
    else posixResolveDots abs (s :: acc) rest

/-- Concatenate a list of strings with `/` between them. -/
def joinWithSlash : List String → String
  | [] => ""
  | [s] => s
  | s :: rest => s ++ "/" ++ joinWithSlash rest

/-- `path.posix.normalize`: collapse repeated slashes, drop `.`, resolve
`..`; an empty result is `.` (or `/` when absolute).  (Trailing-slash
preservation of Node is irrelevant to the claims and not modelled.) -/
def posixNormalize (p : String) : String :=
  let abs := isAbsolutePosix p
  let segs := ((splitChar '/' p.data).map String.mk).filter
    (fun s => !(s = "" || s = "."))
  let out := posixResolveDots abs [] segs
  if out.isEmpty then (if abs then "/" else ".")
  else (if abs then "/" ++ joinWithSlash out else joinWithSlash out)

/-- `path.posix.join(a, b)`: join the non-empty parts with a slash, then
normalize; with no non-empty part the result is `.`. -/
def posixJoin (a b : String) : String :=
  if a = "" then (if b = "" then "." else posixNormalize b)
  else if b = "" then posixNormalize a
  else posixNormalize (a ++ "/" ++ b)

/-- `FtpClient.directoryExists`: read the current directory with `PWD`,
resolve the target (absolute paths kept, relative ones joined onto the
current directory), probe it with `CWD`, then send `CWD <saved>` to
restore; the probe's boolean is the answer.  There is no try/finally in
the source: an exception thrown by any step propagates immediately and
the steps after it never run. -/
def directoryExists (path : String) (st : ConnSt) :
    Except (FtpError × ConnSt) (Bool × ConnSt) :=
  match pwdCommand st with
  | .error e => .error e
  | .ok (currentDir, st1) =>
    let toCheck := if isAbsolutePosix path then path else posixJoin currentDir path
    match cwdCommand toCheck st1 with
    | .error e => .error e
    | .ok (pathExists, st2) =>
      match cwdCommand currentDir st2 with
      | .error e => .error e
      | .ok (_, st3) => .ok (pathExists, st3)

/-! ## Calendar arithmetic and the JavaScript Date model (MDTM) -/

/-- Days from the Unix epoch to the Gregorian date `y-m-d` (`m` 1-based),
by the standard civil-days algorithm with floored division. -/
def daysFromCivil (y m d : Int) : Int :=
  let y2 := if m ≤ 2 then y - 1 else y
  let era := Int.fdiv y2 400
  let yoe := y2 - era * 400
  let mp := Int.fmod (m + 9) 12
  let doy := Int.fdiv (153 * mp + 2) 5 + d - 1
  let doe := yoe * 365 + Int.fdiv yoe 4 - Int.fdiv yoe 100 + doy
  era * 146097 + doe - 719468

/-- Epoch seconds of the UTC wall-clock reading `y-m-d hh:mi:ss` (`m`
1-based; out-of-range day and time fields roll over linearly, exactly as
JavaScript date normalization does). -/
def epochSecondsUTC (y m d hh mi ss : Int) : Int :=
  daysFromCivil y m d * 86400 + hh * 3600 + mi * 60 + ss

/-- `new Date(year, monthIndex, day, hh, mi, ss).getTime()` in seconds on
a runtime whose constant timezone offset is `tzOffsetMin` minutes (the
value `getTimezoneOffset()` returns, UTC minus local).  JavaScript months
are 0-based; an overflowing month index rolls over into later years. -/
def jsDateLocalEpochSeconds (y monthIdx d hh mi ss tzOffsetMin : Int) : Int :=
  epochSecondsUTC (y + Int.fdiv monthIdx 12) (Int.fmod monthIdx 12 + 1) d hh mi ss
    + tzOffsetMin * 60

/-- `RE_LAST_MOD_TIME.exec` on its first use: the anchored pattern of six
digit groups `(\d{4})(\d{2})(\d{2})(\d{2})(\d{2})(\d{2})`, returning the
six parsed numbers.  (The source regex carries the `g` flag, whose
persistent `lastIndex` only affects later calls.) -/
def reLastModTime (s : String) : Option (Nat × Nat × Nat × Nat × Nat × Nat) :=
  let cs := s.data
  if 14 ≤ cs.length then
    if (cs.take 14).all Char.isDigit then
      some (digitsToNat (cs.take 4),
            digitsToNat ((cs.drop 4).take 2),
            digitsToNat ((cs.drop 6).take 2),
            digitsToNat ((cs.drop 8).take 2),
            digitsToNat ((cs.drop 10).take 2),
            digitsToNat ((cs.drop 12).take 2))
    else none
  else none

/-- `LastModifiedTimeCommand.execute`: require the MDTM feature, write
`MDTM <p>`, map 550 to `FtpFileNotFoundException` and any other non-213
code to a generic error; then run `RE_LAST_MOD_TIME` over the trimmed
reply text and build `new Date(m1, m2, m3, m4, m5, m6)` — the parsed
calendar month `m2` is passed directly as the 0-based JavaScript month
index — and finally subtract the timezone offset to turn the local
wall-clock reading into a UTC instant.  Result in epoch seconds. -/
def lastModifiedTimeCommand (path : String) (tzOffsetMin : Int) (st : ConnSt) :
    Except (FtpError × ConnSt) (Int × ConnSt) :=
  if st.features.MDTM = false then
    .error (⟨.ftpGeneric, "MDTM feature not avaible on FTP server"⟩, st)
  else
    match getResponse (writeCmd ("MDTM " ++ path) st) with
    | .error e => .error e
    | .ok (r, st') =>
      if r.code = 550 then
        .error (⟨.fileNotFound, "Cannot get modifitacion time"⟩, st')
      else if r.code = 213 then
        match reLastModTime (jsTrim r.message) with
        | none => .error (⟨.jsTypeError, "m is null"⟩, st')
        | some (y, mo, d, hh, mi, ss) =>
          .ok (jsDateLocalEpochSeconds (y : Int) (mo : Int) (d : Int) (hh : Int)
                 (mi : Int) (ss : Int) tzOffsetMin - tzOffsetMin * 60, st')
      else .error (⟨.ftpGeneric, "Cannot get last modification time"⟩, st')

/-! ## Recursive make-directory (`MkDirCommand`, parseList.ts)

The recursive branch keeps a growing `traverse` prefix and a segment
array `dirs`; `dirs.shift()` on an exhausted array returns `undefined`,
which string concatenation coerces to the literal text `"undefined"` —
embedded faithfully below.  The `while (true)` loop has no structural
bound (it only exits through the `!exists` branch), so the embedding is
fueled; `outOfFuel` is a modelling artifact never reached by the
theorems. -/

/-- `path.split("/")` as the source uses it. -/
def jsSplitSlash (s : String) : List String :=
  (splitChar '/' s.data).map String.mk

mutual

/-- `MkDirCommand.execute(path, recursive, cwdDir)`: reposition to `/`
when `cwdDir` is empty, then either the single `MKD` of the non-recursive
branch or the probing loop of the recursive branch. -/
def mkDirCommand : Nat → String → Bool → String → ConnSt →
    Except (FtpError × ConnSt) ConnSt
  | 0, _, _, _, st => .error (⟨.outOfFuel, "fuel exhausted"⟩, st)
  | fuel + 1, path, recursive, cwdDir, st =>
    let step0 : Except (FtpError × ConnSt) ConnSt :=
      if cwdDir.length = 0 then
        match cwdCommand "/" st with
        | .error e => .error e
        | .ok (_, st') => .ok st'
      else .ok st
    match step0 with
    | .error e => .error e
    | .ok st0 =>
      if recursive then
        mkDirLoop fuel path cwdDir
          ((jsSplitSlash path).filter (fun d => jsTrim d ≠ "")) "" st0
      else
        match cwdCommand path st0 with
        | .error e => .error e
        | .ok (_, st1) =>
          match getResponse
              (writeCmd ("MKD " ++ (jsSplitSlash path).getLastD "undefined") st1) with
          | .error e => .error e
          | .ok (r, st2) =>
            if r.code = 257 then .ok st2
            else .error (⟨.ftpGeneric, "Cannot create directory"⟩, st2)

/-- The `while (true)` loop of the recursive branch: shift the next
segment (`"undefined"` once the array is empty), extend `traverse`,
probe with `CWD`; on a failed probe issue `MKD <last component>`, expect
257, `CWD` again, and recurse on the remaining suffix of the path. -/
def mkDirLoop : Nat → String → String → List String → String → ConnSt →
    Except (FtpError × ConnSt) ConnSt
  | 0, _, _, _, _, st => .error (⟨.outOfFuel, "fuel exhausted"⟩, st)
  | fuel + 1, path, cwdDir, dirs, traverse, st =>
    let shifted := match dirs with | [] => "undefined" | d :: _ => d
    let dirs2 := match dirs with | [] => ([] : List String) | _ :: r => r
    let traverse2 := traverse ++ "/" ++ shifted
    match cwdCommand (cwdDir ++ traverse2) st with
    | .error e => .error e
    | .ok (pathExists, st1) =>
      if pathExists then mkDirLoop fuel path cwdDir dirs2 traverse2 st1
      else
        match getResponse
            (writeCmd ("MKD " ++ (jsSplitSlash traverse2).getLastD "undefined") st1) with
        | .error e => .error e
        | .ok (r, st2) =>
          if r.code = 257 then
            match cwdCommand (cwdDir ++ traverse2) st2 with
            | .error e => .error e
            | .ok (_, st3) =>
              let nextPath := jsDrop path traverse2.length
              if nextPath.length ≠ 0 then
                mkDirCommand fuel nextPath true (cwdDir ++ traverse2) st3
              else .ok st3
          else .error (⟨.ftpGeneric, "Cannot create directory"⟩, st2)

end

/-! ## Passive mode, MLSD listing and directory deletion -/

/-- `RE_EPSV.exec`: the first run of decimal digits in the text. -/
def firstDigitRun : List Char → Option (List Char)
  | [] => none
  | c :: rest =>
    if c.isDigit then some (c :: rest.takeWhile Char.isDigit)
    else firstDigitRun rest

/-- Decode a byte list character-per-byte (the `binary` encoding; on the
ASCII payloads of the claims the `utf8` branch decodes identically). -/
def bytesToString (bs : List Nat) : String :=
  String.mk (bs.map Char.ofNat)

/-- `FtpPassiveModeCommand.execute`: write `EPSV`, take `parseInt` of the
first digit run of the reply (indexing a match-less result raises a JS
TypeError), construct an `FtpDataConnection` (whose constructor rejects a
non-positive port) and connect it; connecting binds the next pending
data-connection payload of the state. -/
def ftpPassiveModeCommand (st : ConnSt) :
    Except (FtpError × ConnSt) (List (List Nat) × ConnSt) :=
  match getResponse (writeCmd "EPSV" st) with
  | .error e => .error e
  | .ok (r, st1) =>
    match firstDigitRun r.message.data with
    | none => .error (⟨.jsTypeError, "match is null"⟩, st1)
    | some ds =>
      if digitsToNat ds = 0 then
        .error (⟨.ftpGeneric, "You must provide port for data connection !"⟩, st1)
      else
        match st1.dataConns with
        | [] => .error (⟨.network, "no data connection pending"⟩, st1)
        | c :: rest => .ok (c, { st1 with dataConns := rest })

/-- A directory entry accumulated by the MLSD branch of
`FtpListCommand`: the name and the three facts that are read downstream
(`type`, `size`, `modify`); facts under other keys are stored on the
dynamic object but never read, so they are not modelled.  `modify` keeps
the six wall-clock fields the source feeds to `new Date(...)`. -/
structure FtpEntryInfo where
  name : String
  etype : Option String
  size : Option Int
  modify : Option (Nat × Nat × Nat × Nat × Nat × Nat)
deriving DecidableEq, Repr

/-- The `substr` slicing of an MLSD `modify` value into its six
wall-clock fields. -/
def mlsdParseModify (s : String) : Nat × Nat × Nat × Nat × Nat × Nat :=
  (digitsToNat (s.data.take 4),
   digitsToNat ((s.data.drop 4).take 2),
   digitsToNat ((s.data.drop 6).take 2),
   digitsToNat ((s.data.drop 8).take 2),
   digitsToNat ((s.data.drop 10).take 2),
   digitsToNat ((s.data.drop 12).take 2))

/-- One MLSD line: split on `;`, pop the last row and strip its leading
character as the name, fold the remaining `fact=value` rows (keys
lower-cased; a fact with no `=` stores `undefined`), then post-process:
a truthy `size` through `parseInt`, a truthy `modify` through the date
slicing (an empty-string fact is falsy and stays unparsed, modelled as
`none`). -/
def mlsdParseLine (l : String) : FtpEntryInfo :=
  let rows := (splitChar ';' l.data).map String.mk
  let name := jsDrop (rows.getLastD "") 1
  let raw := rows.dropLast.foldl
    (fun (acc : Option String × Option String × Option String) r =>
      let props := (splitChar '=' r.data).map String.mk
      let key := jsToLower (props.headD "")
      let value := props.get? 1
      if key = "type" then (value, acc.2.1, acc.2.2)
      else if key = "size" then (acc.1, value, acc.2.2)
      else if key = "modify" then (acc.1, acc.2.1, value)
      else acc)
    (none, none, none)
  { name := name,
    etype := raw.1,
    size := raw.2.1.bind (fun v => if v = "" then none else jsParseInt v),
    modify := raw.2.2.bind (fun v => if v = "" then none else some (mlsdParseModify v)) }

/-- `FtpListCommand.execute`: a missing, empty or blank path becomes the
empty argument; obtain a passive data connection, write `MLSD <path>`
(the claims all run with the MLSD feature negotiated; the Unix `LIST`
fallback and its `parseListLine` regex are outside every claim and the
un-negotiated branch is marked by an artifact error), require 150, read
the data channel to its end, split the decoded payload on CRLF, drop
empty lines and parse each line. -/
def ftpListCommand (pathArg : Option String) (st : ConnSt) :
    Except (FtpError × ConnSt) (List FtpEntryInfo × ConnSt) :=
  let path := match pathArg with
    | none => ""
    | some p => if p ≠ "" ∧ jsTrim p ≠ "" then p else ""
  match ftpPassiveModeCommand st with
  | .error e => .error e
  | .ok (chunks, st1) =>
    if st1.features.MLSD then
      match getResponse (writeCmd ("MLSD " ++ path) st1) with
      | .error e => .error e
      | .ok (r, st2) =>
        if r.code = 150 then
          let listing := (jsSplitCRLF (bytesToString (readToEnd chunks))).filter
            (fun l => l ≠ "")
          .ok (listing.map mlsdParseLine, st2)
        else .error (⟨.ftpGeneric, "Cannot get directory listing"⟩, st2)
    else .error (⟨.ftpGeneric, "LIST branch not modelled"⟩, st1)

/-- `FtpClient.getDirectories`: list, keep entries whose type is `dir`. -/
def getDirectoriesClient (path : Option String) (st : ConnSt) :
    Except (FtpError × ConnSt) (List FtpEntryInfo × ConnSt) :=
  match ftpListCommand path st with
  | .error e => .error e
  | .ok (es, st1) => .ok (es.filter (fun f => f.etype == some "dir"), st1)

/-- `DeleteFileCommand.execute`: write `DELE <p>`; 550 raises
file-not-found; any code other than 250 raises a generic error. -/
def deleteFileCommand (path : String) (st : ConnSt) :
    Except (FtpError × ConnSt) ConnSt :=
  match getResponse (writeCmd ("DELE " ++ path) st) with
  | .error e => .error e
  | .ok (r, st1) =>
    if r.code = 550 then .error (⟨.fileNotFound, "File not found on server"⟩, st1)
    else if r.code = 250 then .ok st1
    else .error (⟨.ftpGeneric, "Cannot delete file from server"⟩, st1)

/-- `GoUpDirectoryCommand.execute`: write `CDUP`; codes of 400 and above
raise. -/
def goUpDirectoryCommand (st : ConnSt) : Except (FtpError × ConnSt) ConnSt :=
  match getResponse (writeCmd "CDUP" st) with
  | .error e => .error e
  | .ok (r, st1) =>
    if 400 ≤ r.code then .error (⟨.ftpGeneric, "Cannot change directory"⟩, st1)
    else .ok st1

/-- The `for (let f of files)` loop of `DeleteDirectoryCommand`. -/
def deleteFilesLoop : List FtpEntryInfo → ConnSt → Except (FtpError × ConnSt) ConnSt
  | [], st => .ok st
  | f :: rest, st =>
    match deleteFileCommand f.name st with
    | .error e => .error e
    | .ok st1 => deleteFilesLoop rest st1

/-- `DeleteDirectoryCommand.execute` (the non-recursive deletion): save
the current directory with `PWD`, probe `CWD <path>` (a `false` probe
raises directory-not-found), list the now-current directory, `DELE` each
file entry, `CDUP`, write `RMD <path>` accepting any code below 400, and
restore the saved directory. -/
def deleteDirectoryCommand (path : String) (st : ConnSt) :
    Except (FtpError × ConnSt) ConnSt :=
  match pwdCommand st with
  | .error e => .error e
  | .ok (cwd, st1) =>
  match cwdCommand path st1 with
  | .error e => .error e
  | .ok (pathExists, st2) =>
    if pathExists = false then
      .error (⟨.directoryNotFound, "Directory not found on server"⟩, st2)
    else
    match ftpListCommand none st2 with
    | .error e => .error e
    | .ok (entries, st3) =>
    match deleteFilesLoop (entries.filter (fun f => f.etype == some "file")) st3 with
    | .error e => .error e
    | .ok st4 =>
    match goUpDirectoryCommand st4 with
    | .error e => .error e
    | .ok st5 =>
    match getResponse (writeCmd ("RMD " ++ path) st5) with
    | .error e => .error e
    | .ok (r, st6) =>
      if 400 ≤ r.code then .error (⟨.ftpGeneric, "Cannot delete directory"⟩, st6)
      else
      match cwdCommand cwd st6 with
      | .error e => .error e
      | .ok (_, st7) => .ok st7

mutual

/-- `FtpClient.deleteDirectory(path, recursive)`: the non-recursive call
delegates to `DeleteDirectoryCommand`; the recursive call lists the
subdirectories of `path` and removes each subdirectory tree — the loop
body and `rmDir` — and then returns: no step deletes `path` itself.
Fueled because the recursion follows the server's listings. -/
def clientDeleteDirectory : Nat → String → Bool → ConnSt →
    Except (FtpError × ConnSt) ConnSt
  | 0, _, _, st => .error (⟨.outOfFuel, "fuel exhausted"⟩, st)
  | _ + 1, path, false, st => deleteDirectoryCommand path st
  | fuel + 1, path, true, st =>
    match getDirectoriesClient (some path) st with
    | .error e => .error e
    | .ok (dirs, st1) =>
      rmDirEntries fuel ((jsSplitSlash path).headD "undefined") dirs st1

/-- The `for (let d of dirs)` loops: remove the tree under
`join(base, d.name)` for each listed subdirectory. -/
def rmDirEntries : Nat → String → List FtpEntryInfo → ConnSt →
    Except (FtpError × ConnSt) ConnSt
  | 0, _, _, st => .error (⟨.outOfFuel, "fuel exhausted"⟩, st)
  | _ + 1, _, [], st => .ok st
  | fuel + 1, base, d :: rest, st =>
    match rmDirRec fuel (posixJoin base d.name) st with
    | .error e => .error e
    | .ok st1 => rmDirEntries fuel base rest st1

/-- The inner `rmDir(toRemove)`: recurse into each subdirectory of
`toRemove`, then delete `toRemove` itself non-recursively. -/
def rmDirRec : Nat → String → ConnSt → Except (FtpError × ConnSt) ConnSt
  | 0, _, st => .error (⟨.outOfFuel, "fuel exhausted"⟩, st)
  | fuel + 1, toRemove, st =>
    match getDirectoriesClient (some toRemove) st with
    | .error e => .error e
    | .ok (listing, st1) =>
    match rmDirEntries fuel toRemove listing st1 with
    | .error e => .error e
    | .ok st2 => clientDeleteDirectory fuel toRemove false st2

end

/-! ## Rename (`RenameCommand`, parseList.ts / `FtpClient.rename`) -/

/-- The constructor guards `x === undefined || x === null ||
x.length === 0` (`none` models both `undefined` and `null`). -/
def strNilOrEmpty : Option String → Bool
  | none => true
  | some s => s.length == 0

/-- The `RenameCommand` constructor: validate `to` first, then `from`;
either failure throws the argument `FtpException` before anything
touches the connection. -/
def renameCommandCtor (src dst : Option String) : Except FtpError (String × String) :=
  if strNilOrEmpty dst then
    .error ⟨.ftpGeneric, "Argument `to` cannot be null or empty"⟩
  else if strNilOrEmpty src then
    .error ⟨.ftpGeneric, "Argument `from` cannot be null or empty"⟩
  else .ok (src.getD "", dst.getD "")

/-- `RenameFromCommand.execute`: write `RNFR <from>`; 550 raises
file-not-found and any code other than 350 a generic error. -/
def renameFromCommand (src : String) (st : ConnSt) :
    Except (FtpError × ConnSt) ConnSt :=
  match getResponse (writeCmd ("RNFR " ++ src) st) with
  | .error e => .error e
  | .ok (r, st1) =>
    if r.code = 550 then .error (⟨.fileNotFound, "Cannot rename"⟩, st1)
    else if r.code = 350 then .ok st1
    else .error (⟨.ftpGeneric, "Cannot rename"⟩, st1)

/-- `RenameToCommand.execute`: write `RNTO <to>`; any code other than
250 raises a generic error. -/
def renameToCommand (dst : String) (st : ConnSt) :
    Except (FtpError × ConnSt) ConnSt :=
  match getResponse (writeCmd ("RNTO " ++ dst) st) with
  | .error e => .error e
  | .ok (r, st1) =>
    if r.code = 250 then .ok st1
    else .error (⟨.ftpGeneric, "Cannot rename"⟩, st1)

/-- `FtpClient.rename(from, to)`: the argument expression
`new RenameCommand(from, to)` runs the validating constructor before
`send` is ever invoked, so a constructor throw leaves the connection
state untouched; otherwise `execute` sends `RNFR` then `RNTO`. -/
def clientRename (src dst : Option String) (st : ConnSt) :
    Except (FtpError × ConnSt) ConnSt :=
  match renameCommandCtor src dst with
  | .error e => .error (e, st)
  | .ok (f, t) =>
    match renameFromCommand f st with
    | .error e => .error e
    | .ok st1 => renameToCommand t st1

end SpineFtp

namespace SpineFtp

/-! ## Claims: reply parser and data-channel collector -/

/-- **C1** (amended).  For every parser state (any pending accumulated
text `buf`, i.e. any open reply) and every processed line, the line
closes and emits a reply precisely when it starts with three digits,
then a character other than `-` (the regex's negated class, which also
accepts a bare line terminator there), then at least one character that
the regex's `.` can match — i.e. not a bare `\n`, `\r`, U+2028 or
U+2029 — regardless of whether its code equals the code that opened the
reply.  The emitted reply's code is parsed from the closing line itself
and its text is the accumulated text extended by the line's captured
dot-run; every other line (openers `NNN-...`, lines whose fifth
character is a bare terminator, and unclassifiable lines) appends its
first maximal dot-run to the accumulator and emits nothing. -/
theorem c1_reply_classification (rb : List String) (buf line : String) :
    (isTerminatorLine line = true →
      processLine ⟨rb, buf⟩ line =
        (some { code := terminatorCode line, message := buf ++ appendedText line ++ "\r\n" },
         ⟨rb, ""⟩))
  ∧ (isTerminatorLine line = false →
      processLine ⟨rb, buf⟩ line = (none, ⟨rb, buf ++ appendedText line ++ "\r\n"⟩)) := by
  obtain ⟨cs⟩ := line
  rcases cs with _ | ⟨a, _ | ⟨b, _ | ⟨c, _ | ⟨d, rest⟩⟩⟩⟩
  · exact ⟨fun h => by simp [isTerminatorLine] at h, fun _ => rfl⟩
  · exact ⟨fun h => by simp [isTerminatorLine] at h, fun _ => rfl⟩
  · exact ⟨fun h => by simp [isTerminatorLine] at h, fun _ => rfl⟩
  · exact ⟨fun h => by simp [isTerminatorLine] at h, fun _ => rfl⟩
  · by_cases h1 : (a.isDigit && b.isDigit && c.isDigit && dotCanMatch rest) = true
    · obtain ⟨⟨⟨ha, hb⟩, hc⟩, ht⟩ :
          ((a.isDigit = true ∧ b.isDigit = true) ∧ c.isDigit = true)
            ∧ dotCanMatch rest = true := by
        simpa [Bool.and_eq_true] using h1
      by_cases h2 : d = '-'
      · subst h2
        refine ⟨fun h => ?_, fun _ => ?_⟩
        · simp [isTerminatorLine] at h
        · simp [processLine, matchCmdLine, appendedText, ha, hb, hc, ht]
      · refine ⟨fun _ => ?_, fun h => ?_⟩
        · simp [processLine, matchCmdLine, appendedText, terminatorCode, ha, hb, hc, ht, h2]
        · exfalso
          simp [isTerminatorLine, ha, hb, hc, ht, h2] at h
    · refine ⟨fun h => ?_, fun _ => ?_⟩
      · exfalso
        simp only [isTerminatorLine, Bool.and_eq_true, decide_eq_true_eq] at h
        obtain ⟨⟨⟨⟨ha, hb⟩, hc⟩, _⟩, ht⟩ := h
        simp [ha, hb, hc, ht] at h1
      · simp [processLine, matchCmdLine, appendedText, h1]

/-- **C1 counterexample.**  While a multi-line reply opened by `211-A` is
open, the line `500 x` — whose three-digit code differs from the opening
code 211 — is not appended: it closes the reply and emits it, with the
code taken from the closing line.  The claim as stated (only a
same-code `NNN<SP>` line closes an open reply; different-code lines are
appended) is therefore false on the code. -/
theorem c1_reply_classification_counterexample :
    (parseResponse initParserState "211-A\r\n500 x\r\n").1 =
      [{ code := 500, message := "A\r\nx\r\n" }] := by decide

/-- **C1 witness.**  The amended theorem applied at a concrete open reply
and the concrete closing line `500 x`. -/
theorem c1_reply_classification_witness :
    processLine ⟨[], "A\r\n"⟩ "500 x" =
      (some { code := 500, message := "A\r\nx\r\n" }, ⟨[], ""⟩) := by
  have h := (c1_reply_classification [] "A\r\n" "500 x").1 (by decide)
  rw [h]
  decide

/-- **C2.**  Reply parsing is not invariant under packet boundaries: the
byte stream `220 hi\r\n` delivered as a single chunk yields the reply
`220 / "hi"`, but the same bytes delivered as the two chunks `220` and
` hi\r\n` yield no reply at all — the fragment `220` is treated as a
complete line (there is no residual partial-line buffer) and both
fragments end up appended to the text accumulator. -/
theorem c2_packet_boundary_dependence :
    (feedChunks ["220 hi\r\n"] initParserState).1 = [{ code := 220, message := "hi\r\n" }]
  ∧ (feedChunks ["220", " hi\r\n"] initParserState).1 = [] := by decide

set_option maxRecDepth 40000 in
/-- **C3.**  `readToEnd` does not return the concatenation of all received
bytes once the 1024-byte initial buffer must grow: after a 600-byte chunk
of 1s and a 600-byte chunk of 2s (1200 bytes received in total), the chunk
that triggers the growth is dropped — the buffer is doubled but the chunk
is never copied and the marker does not advance — so only the first 600
bytes come back. -/
theorem c3_read_to_end_drops_growth_chunk :
    readToEnd [List.replicate 600 1, List.replicate 600 2] = List.replicate 600 1
  ∧ (List.replicate 600 (1 : Nat) ++ List.replicate 600 (2 : Nat)).length = 1200 := by
  constructor
  · decide
  · decide

/-- **C4.**  MDTM parsing is off by one month: on the reply
`213 20180608233854` (and with any runtime timezone offset, which cancels
out) `LastModifiedTimeCommand` returns the UTC instant 2018-**07**-08
23:38:54, not the 2018-**06**-08 23:38:54 the reply denotes, because the
parsed calendar month 06 is passed to `new Date(...)` as a 0-based month
index.  The second conjunct separates the two instants. -/
theorem c4_mdtm_month_off_by_one :
    (∀ tzOffsetMin : Int,
      lastModifiedTimeCommand "/foo.txt" tzOffsetMin
        { written := [], replies := [{ code := 213, message := "20180608233854\r\n" }],
          features := { initFeatures with MDTM := true }, dataConns := [] }
        = .ok (epochSecondsUTC 2018 7 8 23 38 54,
            { written := ["MDTM /foo.txt"], replies := [],
              features := { initFeatures with MDTM := true }, dataConns := [] }))
  ∧ epochSecondsUTC 2018 7 8 23 38 54 ≠ epochSecondsUTC 2018 6 8 23 38 54 := by
  constructor
  · intro tz
    have h1 : reLastModTime (jsTrim "20180608233854\r\n") = some (2018, 6, 8, 23, 38, 54) := by
      decide
    simp only [lastModifiedTimeCommand, getResponse, writeCmd, h1, jsDateLocalEpochSeconds,
      add_sub_cancel_right]
    decide
  · decide

/-- **C6** (amended).  When the PWD read succeeds and the probe completes
with a boolean — both the directory-exists and directory-missing
outcomes — `directoryExists` sends exactly `PWD`, `CWD <target>`,
`CWD <saved>`: the restore is issued for both boolean results of the
probe.  (When a step throws, the error propagates without the restore:
see the counterexample.) -/
theorem c6_directory_exists_restore (path d m1 m2 m3 : String) (c1 c2 c3 : Nat)
    (w : List String) (rest : List FtpResponse) (f : FtpFeatures)
    (dc : List (List (List Nat)))
    (h1 : c1 < 300) (h2 : jsRePwd m1 = some d) :
    directoryExists path ⟨w, ⟨c1, m1⟩ :: ⟨c2, m2⟩ :: ⟨c3, m3⟩ :: rest, f, dc⟩
      = .ok ((if 300 ≤ c2 then false else true),
          ⟨w ++ ["PWD", "CWD " ++ (if isAbsolutePosix path then path else posixJoin d path), "CWD " ++ d], rest, f, dc⟩) := by
  have hn : ¬ 300 ≤ c1 := Nat.not_le.mpr h1
  simp [directoryExists, pwdCommand, cwdCommand, getResponse, writeCmd, hn, h2]

/-- **C6 counterexample.**  With the probe's reply missing (a reply
timeout — one of the claim's "failure" outcomes), `directoryExists`
propagates the exception having sent only `PWD` and `CWD /x`: no
restoring `CWD /` is ever written, because the source has no
try/finally.  The claim's "restores ... regardless of outcome /
unconditionally" is therefore false on the code. -/
theorem c6_directory_exists_counterexample :
    directoryExists "/x"
      { written := [], replies := [{ code := 257, message := "\"/\" ok\r\n" }],
        features := initFeatures, dataConns := [] }
      = .error (⟨.timeout, "Command response timeout"⟩,
          { written := ["PWD", "CWD /x"], replies := [],
            features := initFeatures, dataConns := [] }) := by decide

/-- **C6 witness.**  The amended theorem applied at a concrete
connection: the probe answers 250 and the trace ends with the restoring
`CWD /`. -/
theorem c6_directory_exists_witness :
    directoryExists "/x"
      { written := [], replies := [⟨257, "\"/\" ok\r\n"⟩, ⟨250, "ok\r\n"⟩, ⟨250, "ok2\r\n"⟩],
        features := initFeatures, dataConns := [] }
      = .ok (true,
          { written := ["PWD", "CWD /x", "CWD /"], replies := [],
            features := initFeatures, dataConns := [] }) := by
  have h := c6_directory_exists_restore "/x" "/" "\"/\" ok\r\n" "ok\r\n" "ok2\r\n"
      257 250 250 [] [] initFeatures [] (by decide) (by decide)
  rw [h]
  decide

/-- **C7.**  The login handshake: after the 220 greeting the client
writes exactly `USER u`, `PASS p`, `FEAT`, then `OPTS UTF8 ON` precisely
when the FEAT reply text advertised `UTF8`, then `TYPE I`, in this order
(first two conjuncts, advertised and not); a 530 reply after `PASS`
raises the authorization error (third conjunct); any reply other than
331 after `USER` raises a generic protocol error (fourth conjunct); and
a FEAT reply containing all seven tokens makes all seven feature
booleans true (fifth conjunct). -/
theorem c7_login_handshake (u p : String) :
    (∀ m g1 g2 g3 g5 g6 c3 w rest f0 dc, jsIncludes m "UTF8" = true → c3 ≠ 530 →
      ftpLoginCommand u p ⟨w, [⟨220, g1⟩, ⟨331, g2⟩, ⟨c3, g3⟩, ⟨211, m⟩, ⟨200, g5⟩, ⟨200, g6⟩] ++ rest, f0, dc⟩
        = .ok ⟨w ++ ["USER " ++ u, "PASS " ++ p, "FEAT", "OPTS UTF8 ON", "TYPE I"], rest, scanFeatures m, dc⟩)
  ∧ (∀ m g1 g2 g3 g5 c3 w rest f0 dc, jsIncludes m "UTF8" = false → c3 ≠ 530 →
      ftpLoginCommand u p ⟨w, [⟨220, g1⟩, ⟨331, g2⟩, ⟨c3, g3⟩, ⟨211, m⟩, ⟨200, g5⟩] ++ rest, f0, dc⟩
        = .ok ⟨w ++ ["USER " ++ u, "PASS " ++ p, "FEAT", "TYPE I"], rest, scanFeatures m, dc⟩)
  ∧ (∀ g1 g2 g3 w rest f0 dc,
      ftpLoginCommand u p ⟨w, ⟨220, g1⟩ :: ⟨331, g2⟩ :: ⟨530, g3⟩ :: rest, f0, dc⟩
        = .error (⟨.auth, "Login failed"⟩, ⟨w ++ ["USER " ++ u, "PASS " ++ p], rest, f0, dc⟩))
  ∧ (∀ g1 g2 c2 w rest f0 dc, c2 ≠ 331 →
      ftpLoginCommand u p ⟨w, ⟨220, g1⟩ :: ⟨c2, g2⟩ :: rest, f0, dc⟩
        = .error (⟨.ftpGeneric, "Cannot login to ftp server"⟩, ⟨w ++ ["USER " ++ u], rest, f0, dc⟩))
  ∧ (∀ m, jsIncludes m "MDTM" = true → jsIncludes m "MFMT" = true →
      jsIncludes m "MLSD" = true → jsIncludes m "MLST" = true →
      jsIncludes m "SIZE" = true → jsIncludes m "UTF8" = true →
      jsIncludes m "EPSV" = true →
      scanFeatures m = ⟨true, true, true, true, true, true, true⟩) := by
  have hOpts : ("OPTS " ++ jsToUpper "UTF8" ++ " " ++ jsToUpper "ON") = "OPTS UTF8 ON" := by
    decide
  refine ⟨?_, ?_, ?_, ?_, ?_⟩
  · intro m g1 g2 g3 g5 g6 c3 w rest f0 dc hm hc3
    simp [ftpLoginCommand, ftpWelcomeCommand, ftpUserCommand, ftpPasswordCommand,
      ftpFeaturesCommand, ftpOptionCommand, transferModeBinaryCommand, scanFeatures,
      getResponse, writeCmd, hm, hc3, hOpts]
  · intro m g1 g2 g3 g5 c3 w rest f0 dc hm hc3
    simp [ftpLoginCommand, ftpWelcomeCommand, ftpUserCommand, ftpPasswordCommand,
      ftpFeaturesCommand, ftpOptionCommand, transferModeBinaryCommand, scanFeatures,
      getResponse, writeCmd, hm, hc3, hOpts]
  · intro g1 g2 g3 w rest f0 dc
    simp [ftpLoginCommand, ftpWelcomeCommand, ftpUserCommand, ftpPasswordCommand,
      getResponse, writeCmd]
  · intro g1 g2 c2 w rest f0 dc hc2
    simp [ftpLoginCommand, ftpWelcomeCommand, ftpUserCommand, getResponse, writeCmd, hc2]
  · intro m h1 h2 h3 h4 h5 h6 h7
    simp [scanFeatures, h1, h2, h3, h4, h5, h6, h7]

/-- **C7 witness.**  The theorem applied to the spec's connect-and-
negotiate scenario: greeting 220, then 331 / 230 / a multi-line 211
advertising all seven tokens / 202-ish 200 / 200; the written lines and
the all-true feature set come out exactly as claimed. -/
theorem c7_login_handshake_witness :
    ftpLoginCommand "anonymous" "anonymous"
      ⟨[], [⟨220, "hi\r\n"⟩, ⟨331, "\r\n"⟩, ⟨230, "\r\n"⟩,
            ⟨211, "MDTM\nSIZE\nMLSD\nMLST\nUTF8\nMFMT\nEPSV\r\n"⟩,
            ⟨200, "\r\n"⟩, ⟨200, "\r\n"⟩], initFeatures, []⟩
      = .ok ⟨["USER anonymous", "PASS anonymous", "FEAT", "OPTS UTF8 ON", "TYPE I"], [],
          ⟨true, true, true, true, true, true, true⟩, []⟩ := by
  have h := (c7_login_handshake "anonymous" "anonymous").1
      "MDTM\nSIZE\nMLSD\nMLST\nUTF8\nMFMT\nEPSV\r\n"
      "hi\r\n" "\r\n" "\r\n" "\r\n" "\r\n" 230 [] [] initFeatures []
      (by decide) (by decide)
  simp only [List.append_nil, List.nil_append] at h
  rw [h]
  decide

/-- **C8.**  When every segment of the path already exists,
`MkDirCommand` does not stop after probing them: `createDir("/a", true)`
against a server on which `/a` exists (CWD replies 250 for `/` and `/a`)
pops the exhausted segment array — JavaScript `shift()` yields
`undefined`, coerced to the text `undefined` — and goes on to send
`CWD /a/undefined` and, on its failure, `MKD undefined`, violating the
claim that no further MKD is issued once no segments remain. -/
theorem c8_mkdir_undefined_segment :
    mkDirCommand 8 "/a" true ""
      { written := [], replies := [⟨250, ""⟩, ⟨250, ""⟩, ⟨550, ""⟩, ⟨257, ""⟩, ⟨250, ""⟩],
        features := initFeatures, dataConns := [] }
      = .ok { written := ["CWD /", "CWD /a", "CWD /a/undefined", "MKD undefined", "CWD /a/undefined"],
              replies := [], features := initFeatures, dataConns := [] }
  ∧ "MKD undefined" ∈
      (["CWD /", "CWD /a", "CWD /a/undefined", "MKD undefined", "CWD /a/undefined"] : List String) := by
  constructor
  · decide
  · decide

/-- **C9.**  `deleteDirectory("a", recursive := true)` completes
successfully against a server whose listing of `a` has no subdirectory
entries, yet the whole control trace is `EPSV`, `MLSD a`: the recursive
branch only recurses into subdirectory entries and returns — it never
issues `CDUP` + `RMD a`, so the directory itself is not removed. -/
theorem c9_recursive_delete_keeps_target :
    clientDeleteDirectory 4 "a" true
      { written := [],
        replies := [⟨229, "Entering Extended Passive Mode (|||1234|)\r\n"⟩, ⟨150, "ok\r\n"⟩],
        features := { initFeatures with MLSD := true }, dataConns := [[]] }
      = .ok { written := ["EPSV", "MLSD a"], replies := [],
              features := { initFeatures with MLSD := true }, dataConns := [] }
  ∧ "RMD a" ∉ (["EPSV", "MLSD a"] : List String) := by
  constructor
  · decide
  · decide

/-- **C10.**  When either rename operand is `null`/`undefined` or empty,
`FtpClient.rename` raises the argument `FtpException` from the
`RenameCommand` constructor — which runs before `send` — so the
connection state is returned exactly as it was: no `RNFR` or `RNTO` is
written and no reply is consumed. -/
theorem c10_rename_argument_guard (src dst : Option String) (st : ConnSt)
    (h : src = none ∨ src = some "" ∨ dst = none ∨ dst = some "") :
    ∃ msg, clientRename src dst st = .error (⟨.ftpGeneric, msg⟩, st)
      ∧ (msg = "Argument `to` cannot be null or empty"
        ∨ msg = "Argument `from` cannot be null or empty") := by
  by_cases hd : strNilOrEmpty dst = true
  · exact ⟨"Argument `to` cannot be null or empty",
      by simp [clientRename, renameCommandCtor, hd], Or.inl rfl⟩
  · have hs : strNilOrEmpty src = true := by
      rcases h with h | h | h | h
      · rw [h]; rfl
      · rw [h]; rfl
      · exact absurd (by rw [h]; rfl) hd
      · exact absurd (by rw [h]; rfl) hd
    exact ⟨"Argument `from` cannot be null or empty",
      by simp [clientRename, renameCommandCtor, hd, hs], Or.inr rfl⟩

/-- **C10 witness.**  The theorem applied at an empty `from` operand on
a fresh connection. -/
theorem c10_rename_argument_guard_witness :
    ∃ msg, clientRename (some "") (some "b.txt") ⟨[], [], initFeatures, []⟩
      = .error (⟨.ftpGeneric, msg⟩, ⟨[], [], initFeatures, []⟩)
      ∧ (msg = "Argument `to` cannot be null or empty"
        ∨ msg = "Argument `from` cannot be null or empty") :=
  c10_rename_argument_guard (some "") (some "b.txt") ⟨[], [], initFeatures, []⟩
    (Or.inr (Or.inl rfl))

/-- **C5.**  `fileExists` returns `false` exactly when `SizeCommand`
fails with the file-not-found error (reply 550, or a missing SIZE feature
never produces that class), returns `true` whenever SIZE succeeds (reply
213), propagates every other failure unchanged, and never surfaces a
file-not-found error to its caller. -/
theorem c5_file_exists_error_mapping (path : String) (st : ConnSt) :
    (∀ st', fileExists path st = .ok (false, st') ↔
        ∃ e, sizeCommand path st = .error (e, st') ∧ e.kind = .fileNotFound)
  ∧ (∀ r rest, st.features.SIZE = true → st.replies = r :: rest → r.code = 213 →
      fileExists path st = .ok (true,
        { st with written := st.written ++ ["SIZE " ++ path], replies := rest }))
  ∧ (∀ e st', sizeCommand path st = .error (e, st') → e.kind ≠ .fileNotFound →
      fileExists path st = .error (e, st'))
  ∧ (∀ e st', fileExists path st = .error (e, st') → e.kind ≠ .fileNotFound) := by
  refine ⟨?_, ?_, ?_, ?_⟩
  · intro st'
    constructor
    · intro h
      cases hs : sizeCommand path st with
      | error p =>
        obtain ⟨e, st2⟩ := p
        by_cases hk : e.kind = .fileNotFound
        · simp only [fileExists, hs, hk, if_pos rfl] at h
          have : st2 = st' := by
            simpa using h
          exact ⟨e, by rw [this], hk⟩
        · simp [fileExists, hs, hk] at h
      | ok p =>
        obtain ⟨v, st2⟩ := p
        simp [fileExists, hs] at h
    · rintro ⟨e, hs, hk⟩
      simp [fileExists, hs, hk]
  · intro r rest hfeat hrep hcode
    simp [fileExists, sizeCommand, getResponse, writeCmd, hfeat, hrep, hcode]
  · intro e st' hs hk
    simp [fileExists, hs, hk]
  · intro e st' h
    cases hs : sizeCommand path st with
    | error p =>
      obtain ⟨e2, st2⟩ := p
      by_cases hk : e2.kind = .fileNotFound
      · simp [fileExists, hs, hk] at h
      · simp only [fileExists, hs, hk, if_neg hk] at h
        obtain ⟨he, _⟩ : e2 = e ∧ st2 = st' := by simpa using h
        rw [← he]
        exact hk
    | ok p =>
      obtain ⟨v, st2⟩ := p
      simp [fileExists, hs] at h

/-- **C5 witness.**  The theorem applied at the SIZE-capable connection
whose next reply is `213 123`: `fileExists` answers `true`. -/
theorem c5_file_exists_witness :
    fileExists "/a"
      { written := [], replies := [{ code := 213, message := "123\r\n" }],
        features := { initFeatures with SIZE := true }, dataConns := [] }
      = .ok (true,
        { written := ["SIZE /a"], replies := [],
          features := { initFeatures with SIZE := true }, dataConns := [] }) := by
  have h := (c5_file_exists_error_mapping "/a"
      { written := [], replies := [{ code := 213, message := "123\r\n" }],
        features := { initFeatures with SIZE := true }, dataConns := [] }).2.1
    { code := 213, message := "123\r\n" } [] rfl rfl rfl
  rw [h]
  decide

end SpineFtp
